import Mathlib

/-!
Shallow embedding of the `WebSocketService` singleton
(`src/services/websocket.ts`): a resilient client-side WebSocket
connection manager with exponential-backoff reconnection, a rate
limiter, a health monitor (ping/pong + zombie detection), a bounded
outbound message queue, and a memory-leak heuristic.

Modelling conventions:
* JavaScript timestamps (`Date.now()`) are `Int` milliseconds and are
  passed explicitly wherever the source reads the clock.
* `setTimeout`/`setInterval` handles are modelled by the *pending*
  schedule they represent: `reconnectTimer : Option ℚ` holds the delay
  of the pending reconnect (if any), `healthCheckTimer : Bool` records
  whether the health-check interval is active.
* Floating-point arithmetic in `calculateBackoffDelay`
  (`3000 * 1.5 ^ n`, capped at `30000`) is exact binary arithmetic for
  every value below the cap, so it is embedded as exact `ℚ` arithmetic.
* The browser `WebSocket` handle is `Option ReadyState`; transport
  events (open/close) are steps of an explicit operation machine.
* Log output that the spec treats as a "warning signal" is modelled as
  a `Bool` (or an outcome tag) in the result of the operation.
-/

namespace WebSocketService

/-- The `WebSocket.readyState` constants of the browser transport. -/
inductive ReadyState
  | CONNECTING
  | OPEN
  | CLOSING
  | CLOSED
deriving DecidableEq, Repr

/-- An outbound payload: `typeof message === "string"` text, or a
structured object.  `JSON.stringify` on an object either yields a
string or throws (circular structures, `BigInt`), which the embedding
records as `Option String`. -/
inductive Message
  | text (s : String)
  | obj (stringified : Option String)
deriving DecidableEq, Repr

/-- `this.rateLimitCounter = { timestamp, count }`. -/
structure RateLimitCounter where
  timestamp : Int
  count : Nat
deriving DecidableEq, Repr

/-- `this.memoryLeakDetection = { lastMemoryUsage, checkCount, increasingCount }`. -/
structure MemoryLeakDetection where
  lastMemoryUsage : Int
  checkCount : Nat
  increasingCount : Nat
deriving DecidableEq, Repr

/-- The constant `MAX_RECONNECT_ATTEMPTS = 5`. -/
def MAX_RECONNECT_ATTEMPTS : Nat := 5

/-- The constant `RECONNECT_INTERVAL = 3000` (ms), the backoff base. -/
def RECONNECT_INTERVAL : ℚ := 3000

/-- The constant `MAX_MISSED_PINGS = 2`. -/
def MAX_MISSED_PINGS : Nat := 2

/-- The constant `MAX_QUEUE_SIZE = 100`. -/
def MAX_QUEUE_SIZE : Nat := 100

/-- The constant `MAX_MESSAGE_SIZE = 1024 * 1024`. -/
def MAX_MESSAGE_SIZE : Nat := 1024 * 1024

/-- The constant `MAX_BACKOFF_DELAY = 30000` (ms). -/
def MAX_BACKOFF_DELAY : ℚ := 30000

/-- The constant `ZOMBIE_CONNECTION_TIMEOUT = 90000` (ms). -/
def ZOMBIE_CONNECTION_TIMEOUT : Int := 90000

/-- The constant `RATE_LIMIT_RESET = 60000` (ms). -/
def RATE_LIMIT_RESET : Int := 60000

/-- The constant `MAX_RATE_LIMIT_ATTEMPTS = 10`. -/
def MAX_RATE_LIMIT_ATTEMPTS : Nat := 10

/-- The mutable fields of the `WebSocketService` singleton that the
connection-lifecycle, reconnection, health and queue logic touches.
Telemetry counters (`txBytes`, `messagesSent`, ...) and the listener
set are not read by any of that logic and are modelled separately
(`MemoryLeakDetection` for the leak heuristic). -/
structure State where
  ws : Option ReadyState
  reconnectTimer : Option ℚ
  healthCheckTimer : Bool
  messageQueue : List Message
  reconnectCount : Nat
  missedPings : Nat
  lastPongTime : Int
  lastMessageTime : Int
  connectionStartTime : Int
  isInitialized : Bool
  isReconnecting : Bool
  rateLimitCounter : RateLimitCounter
deriving DecidableEq, Repr

/-- The field initialisers of the class, at construction time `now0`
(`lastPongTime` and `lastMessageTime` start at `Date.now()`). -/
def initialState (now0 : Int) : State where
  ws := none
  reconnectTimer := none
  healthCheckTimer := false
  messageQueue := []
  reconnectCount := 0
  missedPings := 0
  lastPongTime := now0
  lastMessageTime := now0
  connectionStartTime := 0
  isInitialized := false
  isReconnecting := false
  rateLimitCounter := ⟨now0, 0⟩

/-- `calculateBackoffDelay()`:
`Math.min(RECONNECT_INTERVAL * Math.pow(1.5, reconnectCount), MAX_BACKOFF_DELAY)`.
Exact rational arithmetic: `3000 * 1.5^n` is exactly representable in
binary floating point for every `n` whose value is below the cap, and
above the cap only the (exact) cap is returned, so the `ℚ` function
agrees with the IEEE-754 computation at every attempt count. -/
def calculateBackoffDelay (reconnectCount : Nat) : ℚ :=
  min (RECONNECT_INTERVAL * (3 / 2 : ℚ) ^ reconnectCount) MAX_BACKOFF_DELAY

/-- `checkRateLimit()`: resets the window when more than
`RATE_LIMIT_RESET` ms have elapsed since its timestamp, refuses once
`count` has reached `MAX_RATE_LIMIT_ATTEMPTS`, otherwise increments
`count` and permits the attempt. -/
def checkRateLimit (now : Int) (st : State) : Bool × State :=
  let r0 := st.rateLimitCounter
  let r := if now - r0.timestamp > RATE_LIMIT_RESET then ⟨now, 0⟩ else r0
  if r.count ≥ MAX_RATE_LIMIT_ATTEMPTS then
    (false, { st with rateLimitCounter := r })
  else
    (true, { st with rateLimitCounter := ⟨r.timestamp, r.count + 1⟩ })

/-- `stopHealthChecks()`: clears the health-check interval. -/
def stopHealthChecks (st : State) : State :=
  { st with healthCheckTimer := false }

/-- `startHealthChecks()`: `stopHealthChecks()` then installs the
health-check interval. -/
def startHealthChecks (st : State) : State :=
  { stopHealthChecks st with healthCheckTimer := true }

/-- `connect()`: no-op while `isReconnecting` or already `OPEN`; no-op
when the rate limiter refuses; otherwise constructs a new transport
(`readyState` `CONNECTING`), records the start time and sets the
`isReconnecting` / `isInitialized` flags.  (Transport construction is
assumed to succeed; the `try`/`catch` around `new WebSocket` only logs
and calls `handleError` on failure.) -/
def connect (now : Int) (st : State) : State :=
  if st.isReconnecting = true ∨ st.ws = some ReadyState.OPEN then st
  else
    let res := checkRateLimit now st
    if res.1 then
      { res.2 with
          ws := some ReadyState.CONNECTING
        , connectionStartTime := now
        , isReconnecting := true
        , isInitialized := true }
    else res.2

/-- `disconnect()`: stops health checks, cancels a pending reconnect
timer, closes the transport if present and clears the handle. -/
def disconnect (st : State) : State :=
  let st := stopHealthChecks st
  let st := { st with reconnectTimer := none }
  match st.ws with
  | some _ => { st with ws := none }
  | none => st

/-- `reconnect()`: `disconnect()`, reset `reconnectCount` to `0`,
then a fresh `connect()`. -/
def reconnect (now : Int) (st : State) : State :=
  connect now { disconnect st with reconnectCount := 0 }

/-- `attemptReconnect()`: while below `MAX_RECONNECT_ATTEMPTS`,
increments `reconnectCount` and schedules `connect()` after
`calculateBackoffDelay()` (computed with the already-incremented
counter, as in the source). -/
def attemptReconnect (st : State) : State :=
  if st.reconnectCount < MAX_RECONNECT_ATTEMPTS then
    let st := { st with reconnectCount := st.reconnectCount + 1 }
    { st with reconnectTimer := some (calculateBackoffDelay st.reconnectCount) }
  else st

/-- `queueMessage(message)`: appends while strictly below
`MAX_QUEUE_SIZE`, otherwise drops the message and logs the
"Message queue overflow" warning (the returned `Bool`). -/
def queueMessage (q : List Message) (m : Message) : List Message × Bool :=
  if q.length < MAX_QUEUE_SIZE then (q ++ [m], false) else (q, true)

/-- The `messageStr` computation at the top of `send`:
`typeof message === "string" ? message : JSON.stringify(message)`.
`none` means `JSON.stringify` threw. -/
def stringifyMessage : Message → Option String
  | .text s => some s
  | .obj o => o

/-- The observable outcome of one `send` call: transmitted on the
open transport, appended to the queue, or dropped (with a logged
warning or error). -/
inductive SendOutcome
  | transmitted
  | queued
  | dropped
deriving DecidableEq, Repr

/-- `send(message)`: stringifies (a throwing `JSON.stringify`
propagates to the caller, hence `Except`), drops oversized messages,
transmits directly while the transport is `OPEN` (`sendOk` is the
outcome of the underlying `ws.send`, whose synchronous failure is
caught and falls back to `queueMessage`), and queues otherwise.
The transmit counters (`txCount`, `txBytes`) are telemetry not read by
the modelled logic and are omitted. -/
def send (sendOk : Bool) (st : State) (m : Message) :
    Except Unit (State × SendOutcome) :=
  match stringifyMessage m with
  | none => .error ()
  | some messageStr =>
    .ok <|
      if messageStr.length > MAX_MESSAGE_SIZE then (st, SendOutcome.dropped)
      else if st.ws = some ReadyState.OPEN then
        if sendOk then (st, SendOutcome.transmitted)
        else
          let res := queueMessage st.messageQueue m
          ({ st with messageQueue := res.1 },
           if res.2 then SendOutcome.dropped else SendOutcome.queued)
      else
        let res := queueMessage st.messageQueue m
        ({ st with messageQueue := res.1 },
         if res.2 then SendOutcome.dropped else SendOutcome.queued)

/-- JavaScript truthiness of a queued `string | object` payload, as
tested by the drain loop's `if (message)` guard: the empty string is
falsy, every other string and every object is truthy. -/
def Message.isTruthy : Message → Bool
  | .text s => !(s == "")
  | .obj _ => true

/-- `processMessageQueue()`: `while (messageQueue.length > 0 &&
this.ws?.readyState === WebSocket.OPEN) { const message = shift();
if (message) send(message) }`.
`this.ws?.readyState === OPEN`, re-read from the mutable handle at
each loop iteration, is modelled by the oracle `openAt i` for the
`i`-th iteration.  A message popped while the transport is open is
transmitted only if it passes the `if (message)` truthiness guard — a
falsy entry (the empty string) is shifted off and silently discarded.
(Queued messages already passed `send`'s size check and serialization
when they were queued, and `ws.send` on an open transport is taken to
succeed here; its synchronous-failure fallback is modelled in `send`.)
Returns `(transmitted messages, remaining queue)`. -/
def processMessageQueue (openAt : Nat → Bool) :
    Nat → List Message → List Message × List Message
  | _, [] => ([], [])
  | i, msg :: rest =>
    if openAt i then
      let res := processMessageQueue openAt (i + 1) rest
      (if msg.isTruthy then msg :: res.1 else res.1, res.2)
    else ([], msg :: rest)

/-- The number of queue entries the drain loop pops before its guard
first sees a non-open transport: the specification-side measure used
to characterise `processMessageQueue`. -/
def drainCount (openAt : Nat → Bool) : Nat → Nat → Nat
  | _, 0 => 0
  | i, n + 1 => if openAt i then drainCount openAt (i + 1) n + 1 else 0

/-- `handleOpen()`: clears `isReconnecting`, resets `reconnectCount`
and `missedPings`, stamps `lastPongTime`/`lastMessageTime` with now,
starts health checks and drains the queue.  Within this synchronous
handler the transport's `readyState` cannot change, so the drain's
per-iteration guard is the constant `this.ws?.readyState === OPEN`
read from the state. -/
def handleOpen (now : Int) (st : State) : State :=
  let st :=
    { st with
        isReconnecting := false
      , reconnectCount := 0
      , missedPings := 0
      , lastPongTime := now
      , lastMessageTime := now }
  let st := startHealthChecks st
  { st with
      messageQueue :=
        (processMessageQueue (fun _ => decide (st.ws = some ReadyState.OPEN)) 0
            st.messageQueue).2 }

/-- `handleClose(event)`: stops health checks, clears
`isReconnecting`, and unconditionally calls `attemptReconnect()`. -/
def handleClose (st : State) : State :=
  attemptReconnect { stopHealthChecks st with isReconnecting := false }

/-- `handleError(error)`: logs and clears `isReconnecting`. -/
def handleError (st : State) : State :=
  { st with isReconnecting := false }

/-- `handlePong()`: stamps `lastPongTime`, resets `missedPings`. -/
def handlePong (now : Int) (st : State) : State :=
  { st with lastPongTime := now, missedPings := 0 }

/-- The observable outcome of one `performHealthCheck` tick: how many
times `reconnect()` was invoked and whether the `{action:"ping"}`
control message was sent. -/
structure HealthTick where
  reconnects : Nat
  pingSent : Bool
deriving DecidableEq, Repr

/-- `performHealthCheck()`: when the time since the last pong exceeds
the (mutable, hence parameter) `HEALTH_CHECK_TIMEOUT`, increments
`missedPings`; once `missedPings` reaches `MAX_MISSED_PINGS` it calls
`reconnect()` and returns, skipping the ping send; otherwise, if the
transport is `OPEN`, it sends the `{action:"ping"}` message. -/
def performHealthCheck (timeout now : Int) (st : State) : State × HealthTick :=
  if now - st.lastPongTime > timeout then
    let st1 := { st with missedPings := st.missedPings + 1 }
    if st1.missedPings ≥ MAX_MISSED_PINGS then
      (reconnect now st1, ⟨1, false⟩)
    else if st1.ws = some ReadyState.OPEN then (st1, ⟨0, true⟩)
    else (st1, ⟨0, false⟩)
  else if st.ws = some ReadyState.OPEN then (st, ⟨0, true⟩)
  else (st, ⟨0, false⟩)

/-- `checkZombieConnection()`: while the transport reports `OPEN` and
no inbound traffic arrived within `ZOMBIE_CONNECTION_TIMEOUT`, forces
`reconnect()`.  The `Bool` records whether the reconnect fired. -/
def checkZombieConnection (now : Int) (st : State) : State × Bool :=
  if st.ws = some ReadyState.OPEN ∧
      now - st.lastMessageTime > ZOMBIE_CONNECTION_TIMEOUT then
    (reconnect now st, true)
  else (st, false)

/-- `handleWindowFocus()`: runs `checkZombieConnection()` only under
the guard `!this.ws || this.ws.readyState !== WebSocket.OPEN`. -/
def handleWindowFocus (now : Int) (st : State) : State × Bool :=
  if st.ws = none ∨ st.ws ≠ some ReadyState.OPEN then
    checkZombieConnection now st
  else (st, false)

/-- `handleVisibilityChange()`: runs `checkZombieConnection()` when
the document became visible. -/
def handleVisibilityChange (visible : Bool) (now : Int) (st : State) :
    State × Bool :=
  if visible then checkZombieConnection now st else (st, false)

/-- The queue-trimming half of `cleanupResources()`: when the queue
exceeds `MAX_QUEUE_SIZE / 2`, keeps only its `slice(-MAX_QUEUE_SIZE/2)`
(the last 50 entries) and logs a warning (the `Bool`).  The
listener-count advisory log touches no modelled state. -/
def cleanupResources (st : State) : State × Bool :=
  if st.messageQueue.length > MAX_QUEUE_SIZE / 2 then
    ({ st with
        messageQueue :=
          st.messageQueue.drop (st.messageQueue.length - MAX_QUEUE_SIZE / 2) },
     true)
  else (st, false)

/-- `checkForMemoryLeaks()`: when the sampled footprint strictly
exceeds the previous sample, increments `increasingCount` and — once
that streak reaches 5 — logs the leak warning and calls
`debugMemoryUsage()` (the returned `Bool`); a non-increasing sample
resets the streak to 0.  Either way the sample is stored and
`checkCount` advances. -/
def checkForMemoryLeaks (currentMemory : Int) (d : MemoryLeakDetection) :
    MemoryLeakDetection × Bool :=
  let res :=
    if currentMemory > d.lastMemoryUsage then
      let d1 : MemoryLeakDetection :=
        { d with increasingCount := d.increasingCount + 1 }
      (d1, decide (d1.increasingCount ≥ 5))
    else ({ d with increasingCount := 0 }, false)
  ({ res.1 with
      lastMemoryUsage := currentMemory
    , checkCount := res.1.checkCount + 1 },
   res.2)

/-- A run of consecutive telemetry ticks of the leak detector over a
list of footprint samples; returns the final detector state and the
number of ticks on which the leak warning was emitted. -/
def leakTicks : List Int → MemoryLeakDetection → MemoryLeakDetection × Nat
  | [], d => (d, 0)
  | m :: ms, d =>
    let r1 := checkForMemoryLeaks m d
    let r2 := leakTicks ms r1.1
    (r2.1, (if r1.2 then 1 else 0) + r2.2)

/-- The public operations and transport events the lifecycle claims
quantify over: the three public lifecycle calls and the transport's
open/close callbacks. -/
inductive Op
  | connectCall (now : Int)
  | disconnectCall
  | reconnectCall (now : Int)
  | openEvent (now : Int)
  | closeEvent
deriving DecidableEq, Repr

/-- Whether an operation is one of the two that set the
reconnect-attempt counter to zero in the source (`handleOpen` and the
explicit `reconnect()` call). -/
def Op.resetsCounter : Op → Bool
  | .openEvent _ => true
  | .reconnectCall _ => true
  | _ => false

/-- One step of the service: public calls run the corresponding
method; a transport `open` event first moves the held handle's
`readyState` to `OPEN` (the discarded handle of a disconnected service
still fires `handleOpen`, but `this.ws` is then `null`), a `close`
event moves it to `CLOSED`, and the still-attached `onopen`/`onclose`
callbacks of the service run. -/
def step : Op → State → State
  | .connectCall now, st => connect now st
  | .disconnectCall, st => disconnect st
  | .reconnectCall now, st => reconnect now st
  | .openEvent now, st =>
      handleOpen now { st with ws := st.ws.map fun _ => ReadyState.OPEN }
  | .closeEvent, st =>
      handleClose { st with ws := st.ws.map fun _ => ReadyState.CLOSED }

/-- The service right after construction at time 0, a `connect()` at
time 0 and the transport's `open` event at time 0. -/
def stOpen : State :=
  step (.openEvent 0) (step (.connectCall 0) (initialState 0))

/-- `stOpen` after the transport's `close` event: the attempt counter
is 1 and a backoff retry is pending. -/
def stClosed : State := step .closeEvent stOpen

/-- `stOpen` with one missed ping already recorded. -/
def stMissed : State := { stOpen with missedPings := 1 }

/-- A service state whose rate-limit window is exhausted: ten attempts
already permitted at window timestamp 0. -/
def stRateLimited : State :=
  { initialState 0 with rateLimitCounter := ⟨0, 10⟩ }

/-- A queue already at `MAX_QUEUE_SIZE` capacity. -/
def qFull : List Message := List.replicate MAX_QUEUE_SIZE (Message.text "x")

/-- Whether an operation is a transport `open` event. -/
def Op.isOpenEvent : Op → Bool
  | .openEvent _ => true
  | _ => false

/-- `connect` never touches the reconnect-attempt counter. -/
lemma connect_reconnectCount (now : Int) (st : State) :
    (connect now st).reconnectCount = st.reconnectCount := by
  unfold connect checkRateLimit
  dsimp only
  split_ifs <;> rfl

/-- `disconnect` never touches the reconnect-attempt counter. -/
lemma disconnect_reconnectCount (st : State) :
    (disconnect st).reconnectCount = st.reconnectCount := by
  cases hws : st.ws <;> simp [disconnect, stopHealthChecks, hws]

/-- `reconnect` always leaves the reconnect-attempt counter at zero. -/
lemma reconnect_reconnectCount (now : Int) (st : State) :
    (reconnect now st).reconnectCount = 0 := by
  unfold reconnect
  rw [connect_reconnectCount]

/-- `handleOpen` always leaves the reconnect-attempt counter at zero. -/
lemma handleOpen_reconnectCount (now : Int) (st : State) :
    (handleOpen now st).reconnectCount = 0 := by
  simp [handleOpen, startHealthChecks, stopHealthChecks]

/-- `handleOpen` always resets the missed-ping counter. -/
lemma handleOpen_missedPings (now : Int) (st : State) :
    (handleOpen now st).missedPings = 0 := by
  simp [handleOpen, startHealthChecks, stopHealthChecks]

/-- `handleClose` can only leave the counter at zero if it was zero. -/
lemma handleClose_reconnectCount (st : State) :
    (handleClose st).reconnectCount = 0 → st.reconnectCount = 0 := by
  unfold handleClose attemptReconnect stopHealthChecks
  split_ifs with h
  · intro hzero
    exact absurd hzero (Nat.succ_ne_zero _)
  · exact fun hzero => hzero

/-- Claim C1: `disconnect()` is required to leave no pending timer, so
that no reconnect, probe or open can ever follow.  The code violates
this: although `disconnect()` itself clears both timers, the `onclose`
callback stays attached to the socket it closed, and the transport's
ensuing close event runs `handleClose → attemptReconnect`, which
schedules a fresh backoff reconnect timer (here 4500 ms) that will
later run `connect()`. -/
theorem disconnect_then_close_schedules_reconnect :
    (disconnect stOpen).reconnectTimer = none
  ∧ (disconnect stOpen).healthCheckTimer = false
  ∧ (step Op.closeEvent (disconnect stOpen)).reconnectTimer
      = some (calculateBackoffDelay 1)
  ∧ (step Op.closeEvent (disconnect stOpen)).reconnectCount = 1 := by
  exact ⟨rfl, rfl, rfl, rfl⟩

/-- Claim C2, counterexample: the reconnect-attempt counter also drops
from a non-zero value to zero on an explicit `reconnect()` call, not
only on a successful open.  After connect/open/close the counter is 1;
the `reconnect()` step zeroes it although it is not an open event. -/
theorem reconnect_zeroes_counter_without_open :
    stClosed.reconnectCount = 1
  ∧ (step (Op.reconnectCall 1000) stClosed).reconnectCount = 0
  ∧ (Op.reconnectCall 1000).isOpenEvent = false := by
  exact ⟨rfl, rfl, rfl⟩

/-- Claim C2 as amended: over all operation and transport-event steps,
the reconnect-attempt counter drops from non-zero to zero exactly on a
successful open or an explicit `reconnect()` call, and both of those
always leave it at zero. -/
theorem counter_resets_exactly_on_open_or_reconnect (op : Op) (st : State) :
    ((step op st).reconnectCount = 0 → st.reconnectCount ≠ 0 →
      op.resetsCounter = true)
  ∧ (op.resetsCounter = true → (step op st).reconnectCount = 0) := by
  cases op with
  | connectCall now =>
      refine ⟨fun h hne => ?_, fun h => by simp [Op.resetsCounter] at h⟩
      rw [step, connect_reconnectCount] at h
      exact absurd h hne
  | disconnectCall =>
      refine ⟨fun h hne => ?_, fun h => by simp [Op.resetsCounter] at h⟩
      rw [step, disconnect_reconnectCount] at h
      exact absurd h hne
  | reconnectCall now =>
      exact ⟨fun _ _ => rfl, fun _ => reconnect_reconnectCount now st⟩
  | openEvent now =>
      exact ⟨fun _ _ => rfl, fun _ => handleOpen_reconnectCount now _⟩
  | closeEvent =>
      refine ⟨fun h hne => ?_, fun h => by simp [Op.resetsCounter] at h⟩
      exact absurd (handleClose_reconnectCount _ h) hne

/-- Witness for the amended claim C2 at a concrete input: the open
event on the just-closed service zeroes the counter. -/
theorem counter_resets_witness :
    (step (Op.openEvent 5) stClosed).reconnectCount = 0 :=
  (counter_resets_exactly_on_open_or_reconnect (Op.openEvent 5) stClosed).2 rfl

/-- Claim C3, counterexample: `send` does not return normally on every
input: a structured object on which `JSON.stringify` throws (circular
structure) makes the unguarded `messageStr` computation at the top of
`send` raise to the caller. -/
theorem send_nonserializable_raises :
    send true (initialState 0) (Message.obj none) = .error () := rfl

/-- Claim C3 as amended: for every message whose serialization
succeeds (any text, or any structured object `JSON.stringify` accepts)
and every connection state, `send` returns normally — it transmits,
queues, or drops, and never raises to the caller. -/
theorem send_returns_on_serializable (sendOk : Bool) (st : State) (m : Message)
    (h : (stringifyMessage m).isSome = true) :
    (send sendOk st m).isOk = true := by
  cases hm : stringifyMessage m with
  | none => rw [hm] at h; simp at h
  | some s => simp only [send, hm, Except.isOk, Except.toBool]

/-- Witness for the amended claim C3 at a concrete input. -/
theorem send_returns_witness :
    (stringifyMessage (Message.text "hello")).isSome = true
  ∧ (send true (initialState 0) (Message.text "hello")).isOk = true :=
  ⟨rfl, send_returns_on_serializable true (initialState 0)
          (Message.text "hello") rfl⟩

/-- Claim C4, counterexample: the backoff delay at attempt count 4 is
not exactly 15187 ms: the code computes `3000 * 1.5 ^ 4 = 15187.5` ms
(exact in binary floating point). -/
theorem backoff_attempt_four_fractional :
    calculateBackoffDelay 4 ≠ 15187 ∧ calculateBackoffDelay 4 = 30375 / 2 := by
  constructor <;>
    norm_num [calculateBackoffDelay, RECONNECT_INTERVAL, MAX_BACKOFF_DELAY,
      min_def]

/-- Claim C4 as amended: the backoff delay equals
`min (3000 * 1.5 ^ attempt) 30000`, is monotonically non-decreasing in
the attempt counter, never exceeds 30000 ms, and for attempts 0..5
yields exactly 3000, 4500, 6750, 10125, 15187.5 and 22781.25 ms. -/
theorem backoff_monotone_capped_values :
    (∀ m n : Nat, m ≤ n → calculateBackoffDelay m ≤ calculateBackoffDelay n)
  ∧ (∀ n : Nat, calculateBackoffDelay n ≤ 30000)
  ∧ calculateBackoffDelay 0 = 3000
  ∧ calculateBackoffDelay 1 = 4500
  ∧ calculateBackoffDelay 2 = 6750
  ∧ calculateBackoffDelay 3 = 10125
  ∧ calculateBackoffDelay 4 = 30375 / 2
  ∧ calculateBackoffDelay 5 = 91125 / 4 := by
  refine ⟨?_, ?_, ?_, ?_, ?_, ?_, ?_, ?_⟩
  · intro m n hmn
    unfold calculateBackoffDelay
    refine min_le_min ?_ le_rfl
    have h32 : (1 : ℚ) ≤ 3 / 2 := by norm_num
    have hpow := pow_le_pow_right₀ h32 hmn
    have hb : (0 : ℚ) ≤ RECONNECT_INTERVAL := by norm_num [RECONNECT_INTERVAL]
    exact mul_le_mul_of_nonneg_left hpow hb
  · intro n
    unfold calculateBackoffDelay
    exact min_le_right _ _
  all_goals
    norm_num [calculateBackoffDelay, RECONNECT_INTERVAL, MAX_BACKOFF_DELAY,
      min_def]

/-- Witness for the amended claim C4 at a concrete input. -/
theorem backoff_monotone_witness :
    (2 : Nat) ≤ 3 ∧ calculateBackoffDelay 2 ≤ calculateBackoffDelay 3 :=
  ⟨by decide, backoff_monotone_capped_values.1 2 3 (by decide)⟩

/-- A rate-limit check inside the current window with an exhausted
counter refuses and changes nothing. -/
lemma checkRateLimit_blocked (now : Int) (st : State)
    (h3 : MAX_RATE_LIMIT_ATTEMPTS ≤ st.rateLimitCounter.count)
    (h4 : now - st.rateLimitCounter.timestamp ≤ RATE_LIMIT_RESET) :
    checkRateLimit now st = (false, st) := by
  unfold checkRateLimit
  dsimp only
  rw [if_neg (not_lt.mpr h4), if_pos h3]

/-- A rate-limit check after the window elapsed resets the window and
permits, counting one attempt. -/
lemma checkRateLimit_window_elapsed (now : Int) (st : State)
    (h3 : RATE_LIMIT_RESET < now - st.rateLimitCounter.timestamp) :
    checkRateLimit now st
      = (true, { st with rateLimitCounter := ⟨now, 1⟩ }) := by
  unfold checkRateLimit
  dsimp only
  rw [if_pos h3]
  have h0 : ¬ (RateLimitCounter.mk now 0).count ≥ MAX_RATE_LIMIT_ATTEMPTS := by
    show ¬ (0 ≥ MAX_RATE_LIMIT_ATTEMPTS)
    decide
  rw [if_neg h0]

/-- A rate-limit check inside the current window with budget left
permits and counts the attempt. -/
lemma checkRateLimit_permitted_within (now : Int) (st : State)
    (h4 : now - st.rateLimitCounter.timestamp ≤ RATE_LIMIT_RESET)
    (hc : st.rateLimitCounter.count < MAX_RATE_LIMIT_ATTEMPTS) :
    checkRateLimit now st
      = (true, { st with rateLimitCounter :=
          ⟨st.rateLimitCounter.timestamp, st.rateLimitCounter.count + 1⟩ }) := by
  unfold checkRateLimit
  dsimp only
  rw [if_neg (not_lt.mpr h4), if_neg (not_le.mpr hc)]

/-- Claim C5: once `MAX_RATE_LIMIT_ATTEMPTS` (10) connection attempts
have been permitted within the rate-limit window, a further `connect()`
within that window is a strict no-op (no transport constructed, no
replacement retry scheduled — the whole state is unchanged); a
`connect()` after the window has elapsed constructs a transport again
and starts a fresh window with one counted attempt; and every
permitted attempt increments the in-window counter by one (so ten
permitted attempts take a fresh window's counter to ten). -/
theorem rateLimiter_blocks_eleventh_within_window (now : Int) (st : State) :
    (st.isReconnecting = false → st.ws ≠ some ReadyState.OPEN →
      MAX_RATE_LIMIT_ATTEMPTS ≤ st.rateLimitCounter.count →
      now - st.rateLimitCounter.timestamp ≤ RATE_LIMIT_RESET →
      connect now st = st)
  ∧ (st.isReconnecting = false → st.ws ≠ some ReadyState.OPEN →
      RATE_LIMIT_RESET < now - st.rateLimitCounter.timestamp →
      (connect now st).ws = some ReadyState.CONNECTING
        ∧ (connect now st).rateLimitCounter = ⟨now, 1⟩)
  ∧ ((checkRateLimit now st).1 = true →
      ((checkRateLimit now st).2).rateLimitCounter.count
        = (if RATE_LIMIT_RESET < now - st.rateLimitCounter.timestamp then 0
           else st.rateLimitCounter.count) + 1) := by
  refine ⟨fun h1 h2 h3 h4 => ?_, fun h1 h2 h3 => ?_, fun h => ?_⟩
  · unfold connect
    rw [if_neg (by simp [h1, h2]), checkRateLimit_blocked now st h3 h4]
    rfl
  · unfold connect
    rw [if_neg (by simp [h1, h2]), checkRateLimit_window_elapsed now st h3]
    exact ⟨rfl, rfl⟩
  · by_cases hw : RATE_LIMIT_RESET < now - st.rateLimitCounter.timestamp
    · rw [checkRateLimit_window_elapsed now st hw, if_pos hw]
    · rw [if_neg hw]
      by_cases hc : MAX_RATE_LIMIT_ATTEMPTS ≤ st.rateLimitCounter.count
      · rw [checkRateLimit_blocked now st hc (not_lt.mp hw)] at h
        simp at h
      · rw [checkRateLimit_permitted_within now st (not_lt.mp hw)
            (not_le.mp hc)]

/-- Witness for claim C5 at a concrete input: an eleventh attempt
5 ms into an exhausted window changes nothing. -/
theorem rateLimiter_witness : connect 5 stRateLimited = stRateLimited :=
  (rateLimiter_blocks_eleventh_within_window 5 stRateLimited).1 rfl
    (by decide) (by decide) (by decide)

/-- The drain loop pops the first `drainCount` queue entries,
transmits the truthy ones among them in order, and leaves the rest of
the queue untouched, for any per-iteration openness oracle and any
starting iteration index. -/
lemma processMessageQueue_spec (openAt : Nat → Bool) :
    ∀ (q : List Message) (i : Nat),
      (processMessageQueue openAt i q).1
        = (q.take (drainCount openAt i q.length)).filter Message.isTruthy
    ∧ (processMessageQueue openAt i q).2
        = q.drop (drainCount openAt i q.length) := by
  intro q
  induction q with
  | nil => exact fun i => ⟨rfl, rfl⟩
  | cons m rest ih =>
    intro i
    by_cases h : openAt i
    · have hrest := ih (i + 1)
      by_cases ht : m.isTruthy
      · simp [processMessageQueue, drainCount, h, ht, hrest.1, hrest.2]
      · simp [processMessageQueue, drainCount, h, ht, hrest.1, hrest.2]
    · simp [processMessageQueue, drainCount, h]

/-- While the oracle stays open, the drain measure is the whole
length. -/
lemma drainCount_all_open (openAt : Nat → Bool)
    (h : ∀ i, openAt i = true) :
    ∀ (n i : Nat), drainCount openAt i n = n := by
  intro n
  induction n with
  | zero => exact fun i => rfl
  | succ k ih => intro i; simp [drainCount, h i, ih (i + 1)]

/-- Claim C6, counterexample: the drain does not transmit every queued
message in arrival order — the `if (message)` truthiness guard at the
shift site silently discards a falsy entry.  An empty string queued
while disconnected (it passes `send`'s size check and is appended) is
popped on a fully-open drain but neither transmitted nor retained:
the transmitted list omits it and the remaining queue is empty. -/
theorem drain_discards_empty_text :
    (processMessageQueue (fun _ => true) 0
        [Message.text "", Message.text "A"]).1 = [Message.text "A"]
  ∧ (processMessageQueue (fun _ => true) 0
        [Message.text "", Message.text "A"]).2 = []
  ∧ queueMessage [] (Message.text "")
      = ([Message.text ""], false) := by
  exact ⟨rfl, rfl, rfl⟩

/-- Claim C6 as amended: the drain on open pops queue entries strictly
in arrival order while the transport still reports `Open`, and
transmits the truthy ones among them in that same order — a falsy
entry (the empty string) is popped and silently discarded by the
`if (message)` guard; if the transport leaves `Open` mid-drain the
loop stops at once, leaving every not-yet-popped message in the queue
in its original order; when the transport stays open throughout, the
queue drains completely. -/
theorem drain_fifo_in_order (openAt : Nat → Bool) (q : List Message) :
    ((processMessageQueue openAt 0 q).1
        = (q.take (drainCount openAt 0 q.length)).filter Message.isTruthy
      ∧ (processMessageQueue openAt 0 q).2
        = q.drop (drainCount openAt 0 q.length))
  ∧ ((∀ i, openAt i = true) → (processMessageQueue openAt 0 q).2 = []) := by
  refine ⟨processMessageQueue_spec openAt q 0, fun h => ?_⟩
  rw [(processMessageQueue_spec openAt q 0).2,
    drainCount_all_open openAt h q.length 0, List.drop_length]

/-- Witness for claim C6 at a concrete input: a transport that stays
open drains the queue completely. -/
theorem drain_fifo_witness :
    (processMessageQueue (fun _ => true) 0
        [Message.text "A", Message.text "B", Message.text "C"]).2 = [] :=
  (drain_fifo_in_order (fun _ => true)
      [Message.text "A", Message.text "B", Message.text "C"]).2 fun _ => rfl

/-- Claim C7: the outbound queue never grows past `MAX_QUEUE_SIZE`
(100) under append, memory-pressure trim or drain; at capacity,
`queueMessage` leaves the queue untouched (no eviction of older
entries) and raises the overflow warning, and a `send` of a
serializable, size-admissible message while disconnected with a full
queue returns the state unchanged with the drop-with-warning
outcome. -/
theorem queue_capacity_invariant :
    (∀ (q : List Message) (m : Message), q.length ≤ MAX_QUEUE_SIZE →
      ((queueMessage q m).1).length ≤ MAX_QUEUE_SIZE)
  ∧ (∀ (q : List Message) (m : Message), q.length = MAX_QUEUE_SIZE →
      queueMessage q m = (q, true))
  ∧ (∀ st : State, st.messageQueue.length ≤ MAX_QUEUE_SIZE →
      (((cleanupResources st).1).messageQueue).length ≤ MAX_QUEUE_SIZE)
  ∧ (∀ (openAt : Nat → Bool) (i : Nat) (q : List Message),
      ((processMessageQueue openAt i q).2).length ≤ q.length)
  ∧ (∀ (sendOk : Bool) (st : State) (m : Message) (s : String),
      stringifyMessage m = some s → s.length ≤ MAX_MESSAGE_SIZE →
      st.ws ≠ some ReadyState.OPEN → st.messageQueue.length = MAX_QUEUE_SIZE →
      send sendOk st m = .ok (st, SendOutcome.dropped)) := by
  refine ⟨fun q m hq => ?_, fun q m hq => ?_, fun st hst => ?_,
          fun openAt i q => ?_, fun sendOk st m s hm hs hws hq => ?_⟩
  · unfold queueMessage
    split_ifs with h
    · simpa using h
    · simpa using hq
  · unfold queueMessage
    rw [if_neg (by omega)]
  · unfold cleanupResources
    split_ifs with h
    · simp only [List.length_drop]
      omega
    · simpa using hst
  · rw [(processMessageQueue_spec openAt q i).2]
    simp only [List.length_drop]
    omega
  · unfold send
    rw [hm]
    dsimp only
    rw [if_neg (not_lt.mpr hs), if_neg hws]
    unfold queueMessage
    have hfull : ¬ st.messageQueue.length < MAX_QUEUE_SIZE := by omega
    rw [if_neg hfull]
    rfl

/-- Witness for claim C7 at a concrete input: appending to a queue of
exactly 100 entries drops the message with a warning and keeps the
queue intact. -/
theorem queue_capacity_witness :
    queueMessage qFull (Message.text "y") = (qFull, true) :=
  queue_capacity_invariant.2.1 qFull (Message.text "y") (by simp [qFull])

/-- Claim C8: on a health-check tick where the missed-probe counter
reaches the tolerance `MAX_MISSED_PINGS` (2), exactly one `reconnect()`
is triggered and the rest of the tick — in particular the ping send —
is skipped; the counter is reset to zero afterward, on the successful
open that follows (`handleOpen`). -/
theorem healthCheck_tolerance_single_reconnect (timeout now : Int) (st : State)
    (h1 : timeout < now - st.lastPongTime)
    (h2 : MAX_MISSED_PINGS ≤ st.missedPings + 1) :
    performHealthCheck timeout now st
      = (reconnect now { st with missedPings := st.missedPings + 1 },
         ⟨1, false⟩)
  ∧ (∀ (now2 : Int) (st2 : State), (handleOpen now2 st2).missedPings = 0) := by
  constructor
  · unfold performHealthCheck
    rw [if_pos h1]
    dsimp only
    rw [if_pos (show ({ st with missedPings := st.missedPings + 1 } :
        State).missedPings ≥ MAX_MISSED_PINGS from h2)]
  · exact fun now2 st2 => handleOpen_missedPings now2 st2

/-- Witness for claim C8 at a concrete input: with one strike already
recorded and a stale pong, the tick reconnects once and skips the
ping. -/
theorem healthCheck_tolerance_witness :
    performHealthCheck 5000 10000 stMissed
      = (reconnect 10000 { stMissed with missedPings := stMissed.missedPings + 1 },
         ⟨1, false⟩) :=
  (healthCheck_tolerance_single_reconnect 5000 10000 stMissed (by decide)
      (by decide)).1

/-- Claim C9, counterexample: the leak warning does not reset the
consecutive-increase streak.  Starting the detector fresh, five
strictly increasing samples emit the warning once and leave the streak
at 5 (not 0), and a sixth increasing sample emits a second warning. -/
theorem leak_warning_streak_not_reset :
    (leakTicks [1, 2, 3, 4, 5] ⟨0, 0, 0⟩).2 = 1
  ∧ (leakTicks [1, 2, 3, 4, 5] ⟨0, 0, 0⟩).1.increasingCount = 5
  ∧ (leakTicks [1, 2, 3, 4, 5, 6] ⟨0, 0, 0⟩).2 = 2 := by
  exact ⟨rfl, rfl, rfl⟩

/-- Claim C9 as amended: on every telemetry tick a strictly greater
footprint increments the streak and emits the leak warning (with the
diagnostic dump) whenever the incremented streak has reached 5 — the
warning itself does not reset the streak; any non-increasing
measurement resets the streak to zero and emits nothing.  The sample
is stored and the tick counter advances either way. -/
theorem leak_tick_behaviour (mem : Int) (d : MemoryLeakDetection) :
    (d.lastMemoryUsage < mem →
      checkForMemoryLeaks mem d
        = (⟨mem, d.checkCount + 1, d.increasingCount + 1⟩,
           decide (d.increasingCount + 1 ≥ 5)))
  ∧ (mem ≤ d.lastMemoryUsage →
      checkForMemoryLeaks mem d = (⟨mem, d.checkCount + 1, 0⟩, false)) := by
  constructor
  · intro h
    unfold checkForMemoryLeaks
    dsimp only
    rw [if_pos h]
  · intro h
    unfold checkForMemoryLeaks
    dsimp only
    rw [if_neg (not_lt.mpr h)]

/-- Witness for the amended claim C9 at a concrete input. -/
theorem leak_tick_witness :
    checkForMemoryLeaks 1 ⟨0, 0, 0⟩ = (⟨1, 1, 1⟩, false) :=
  (leak_tick_behaviour 1 ⟨0, 0, 0⟩).1 (by decide)

/-- Claim C10, counterexample: the zombie check itself would force a
reconnect on this silent-but-open state with zero missed probes, but
the window-focus handler — one of the two lifecycle signals the claim
says reaches it — guards the call with `readyState !== OPEN` and
therefore does nothing at all on an open transport: the zombie
reconnect is unreachable from the focus signal. -/
theorem zombie_unreachable_from_focus :
    stOpen.ws = some ReadyState.OPEN
  ∧ stOpen.missedPings = 0
  ∧ ZOMBIE_CONNECTION_TIMEOUT < 100000 - stOpen.lastMessageTime
  ∧ (checkZombieConnection 100000 stOpen).2 = true
  ∧ handleWindowFocus 100000 stOpen = (stOpen, false) := by
  exact ⟨rfl, rfl, by decide, rfl, rfl⟩

/-- Claim C10 as amended: whenever the transport reports itself open
and no inbound traffic of any kind arrived within the zombie silence
window (90000 ms), the zombie check forces a reconnect, regardless of
the missed-probe counter; the check is reachable from the
visibility-change signal, but the window-focus handler invokes it only
when the transport is not open, so the focus signal can never force
the zombie reconnect. -/
theorem zombie_check_behaviour (now : Int) (st : State) :
    (st.ws = some ReadyState.OPEN →
      ZOMBIE_CONNECTION_TIMEOUT < now - st.lastMessageTime →
      (checkZombieConnection now st).2 = true)
  ∧ handleVisibilityChange true now st = checkZombieConnection now st
  ∧ (st.ws = some ReadyState.OPEN → handleWindowFocus now st = (st, false)) := by
  refine ⟨fun h1 h2 => ?_, ?_, fun h1 => ?_⟩
  · unfold checkZombieConnection
    rw [if_pos ⟨h1, h2⟩]
  · unfold handleVisibilityChange
    rw [if_pos rfl]
  · unfold handleWindowFocus
    rw [if_neg]
    simp [h1]

/-- Witness for the amended claim C10 at a concrete input. -/
theorem zombie_check_witness :
    (checkZombieConnection 100000 stMissed).2 = true :=
  (zombie_check_behaviour 100000 stMissed).1 rfl (by decide)

end WebSocketService
